import Mathlib

/-!
Verification of the conversation context manager of the `ai-doctor` repository.

The development shallowly embeds the three source files:

* `src/types.ts` — the `Message`, `UserLocation` and `AppStatus` data model;
* `src/services/geminiService.ts` — `chatWithDoctor`: the sliding-window
  payload builder, the per-image data-URI handling, and the response
  post-processing (clarification substitution, transport-error rethrow);
* `src/App.tsx` — the session orchestrator `handleSendMessage`, the derived
  turn counter `userMessageCount` / `isLimitReached`, and the grounding
  filter of `renderGrounding`.

Strings are Lean `String`s; the JavaScript regular expressions
`/^data:image\/\w+;base64,/` are modelled character-by-character
(`\w` is `[A-Za-z0-9_]`, matched greedily, which is exact here because the
character following the `\w+` run in the pattern, a semicolon, is not a word
character). The asynchronous model call is modelled by an explicit outcome
parameter (`CallOutcome` at the orchestrator, an `Option` of the raw response
at the service), since the code performs exactly one call per accepted
submission and suspends only at that boundary.
-/

namespace AiDoctor

/-- `types.ts`: `role: 'user' | 'model'`. -/
inductive Role where
  | user
  | model
deriving DecidableEq, Repr

/-- `types.ts`: `AppStatus` enum. -/
inductive AppStatus where
  | IDLE
  | THINKING
  | ERROR
deriving DecidableEq, Repr

/-- `renderGrounding`'s view of a grounding chunk's `web` field:
`{ uri?, title? }`. -/
structure WebInfo where
  uri : Option String
  title : Option String
deriving DecidableEq, Repr

/-- A grounding chunk as consumed by `renderGrounding`: `{ web? }`. -/
structure GroundingChunk where
  web : Option WebInfo
deriving DecidableEq, Repr

/-- The grounding metadata object (`metadata.groundingChunks` may be absent). -/
structure GroundingMetadata where
  groundingChunks : Option (List GroundingChunk)
deriving DecidableEq, Repr

/-- `types.ts`: the `Message` interface. `images?: string[]` and the other
optional fields become `Option`s. -/
structure Message where
  id : String
  role : Role
  text : String
  images : Option (List String)
  groundingMetadata : Option GroundingMetadata
  isThinking : Option Bool
deriving DecidableEq, Repr

/-- `types.ts`: `UserLocation`. The coordinates are opaque to every claim
(they are only forwarded to the tool configuration), so they are embedded as
integers. -/
structure UserLocation where
  latitude : Int
  longitude : Int
deriving DecidableEq, Repr

/-- A content part of the outbound payload: either `{ text }` or
`{ inlineData: { mimeType, data } }`. -/
inductive Part where
  | text (s : String)
  | inlineData (mimeType : String) (data : String)
deriving DecidableEq, Repr

/-- A role-tagged content block of the outbound payload. -/
structure Content where
  role : Role
  parts : List Part
deriving DecidableEq, Repr

/-! ### Character-level helpers for the JavaScript string operations -/

/-- JavaScript `\w` without the unicode flag: `[A-Za-z0-9_]`. -/
def isWordChar (c : Char) : Bool :=
  c.isAlphanum || c == '_'

/-- `beginsWith pat cs` holds when `pat` is an initial segment of `cs`
(the anchored part of the regular expressions, and `String.startsWith`). -/
def beginsWith : List Char → List Char → Bool
  | [], _ => true
  | _ :: _, [] => false
  | a :: as, b :: bs => decide (a = b) && beginsWith as bs

/-- JavaScript `String.prototype.includes`: some contiguous run of
`haystack` equals `needle`. -/
def hasSubList (needle : List Char) : List Char → Bool
  | [] => beginsWith needle []
  | c :: cs => beginsWith needle (c :: cs) || hasSubList needle cs

/-- Greedy run of word characters: the split performed by `\w+` when the
following pattern character is not a word character. -/
def spanWordChars : List Char → List Char × List Char
  | [] => ([], [])
  | c :: cs =>
    if isWordChar c then
      let p := spanWordChars cs
      (c :: p.1, p.2)
    else ([], c :: cs)

/-- The match of `/^data:(image\/\w+);base64,/` against `img`: on success,
returns the captured MIME type and the remainder after the matched prefix
(which is what `img.replace(/^data:image\/\w+;base64,/, "")` keeps). On
failure, `replace` keeps the whole string and the MIME fallback applies. -/
def matchImageDataUri (img : String) : Option (String × String) :=
  let cs := img.data
  let marker := ("data:image/").data
  if beginsWith marker cs then
    let rest := cs.drop marker.length
    let p := spanWordChars rest
    if p.1 ≠ [] ∧ beginsWith ((";base64,").data) p.2 then
      some (String.mk (("image/").data ++ p.1),
            String.mk (p.2.drop ((";base64,").data.length)))
    else none
  else none

/-- `geminiService.ts`: build one `inlineData` part from an image payload —
`base64Data = img.replace(/^data:image\/\w+;base64,/, "")`,
`mimeType = mimeMatch ? mimeMatch[1] : 'image/jpeg'`. -/
def mkInlinePart (img : String) : Part :=
  match matchImageDataUri img with
  | some (mime, data) => Part.inlineData mime data
  | none => Part.inlineData "image/jpeg" img

/-- `geminiService.ts`, history branch: an image of a windowed history
message contributes a part only when `img.startsWith('data:')`. -/
def historyImagePart (img : String) : List Part :=
  if beginsWith (("data:").data) img.data then [mkInlinePart img] else []

/-! ### The Context Window Builder (`chatWithDoctor`, payload half) -/

/-- `geminiService.ts`: `const MAX_HISTORY_MESSAGES = 10`. -/
def MAX_HISTORY_MESSAGES : Nat := 10

/-- One history content block: `parts` starts with the message text, then —
only when `index >= recentHistory.length - 2` and the message has images —
the `inlineData` parts of its `data:`-prefixed images. `total` is
`recentHistory.length`. With `Nat` truncated subtraction `total - 2 ≤ index`
agrees with the JavaScript comparison for every index `< total`. -/
def mkHistoryContent (total index : Nat) (msg : Message) : Content :=
  let imgs := msg.images.getD []
  let imageParts :=
    if imgs ≠ [] ∧ total - 2 ≤ index then imgs.flatMap historyImagePart else []
  { role := msg.role, parts := Part.text msg.text :: imageParts }

/-- `recentHistory.map((msg, index) => ...)`: the indexed map, with the
running index made explicit. -/
def buildHistoryBlocks (total : Nat) : Nat → List Message → List Content
  | _, [] => []
  | index, msg :: rest =>
      mkHistoryContent total index msg :: buildHistoryBlocks total (index + 1) rest

/-- The final content block: the new message text followed by one
`inlineData` part for every currently attached image (`images.forEach`
pushes unconditionally — there is no `data:` check on this branch). -/
def currentParts (newMessage : String) (images : List String) : List Part :=
  Part.text newMessage :: images.map mkInlinePart

/-- `chatWithDoctor`, payload construction: slice the last
`MAX_HISTORY_MESSAGES` messages (`history.slice(-10)`), map them to history
blocks, then append the current-turn block with role `user`. -/
def buildContents (history : List Message) (newMessage : String)
    (images : List String) : List Content :=
  let recentHistory := history.drop (history.length - MAX_HISTORY_MESSAGES)
  buildHistoryBlocks recentHistory.length 0 recentHistory
    ++ [{ role := Role.user, parts := currentParts newMessage images }]

/-- The spec's own description of the window (§4.2 step 1): "the most recent
N messages from the Session Log (N = 10; a sliding window over insertion
order — older messages are silently dropped)". Stated from the tail end:
reverse, take 10, reverse back to insertion order. Used only to compare the
code's `slice(-10)` against the spec's words. -/
def specWindow (log : List Message) : List Message :=
  ((log.reverse).take MAX_HISTORY_MESSAGES).reverse

/-! ### Response post-processing (`chatWithDoctor`, response half) -/

/-- The value `chatWithDoctor` resolves with: `{ text, groundingMetadata? }`. -/
structure ChatResult where
  text : String
  groundingMetadata : Option GroundingMetadata
deriving DecidableEq, Repr

/-- One element of `response.candidates`, as read by `chatWithDoctor`. -/
structure Candidate where
  groundingMetadata : Option GroundingMetadata
deriving DecidableEq, Repr

/-- The raw `generateContent` response, as read by `chatWithDoctor`:
`response.text` may be absent/empty, `response.candidates` may be absent. -/
structure GenerateContentResponse where
  text : Option String
  candidates : Option (List Candidate)
deriving DecidableEq, Repr

/-- `response.candidates?.[0]?.groundingMetadata` with optional chaining:
any absent link yields `undefined`. -/
def extractGroundingMetadata (r : GenerateContentResponse) : Option GroundingMetadata :=
  match r.candidates with
  | none => none
  | some [] => none
  | some (c :: _) => c.groundingMetadata

/-- The fixed clarification string substituted for an empty response. -/
def clarificationText : String :=
  "すみません、うまく聞き取れませんでした。もう一度教えていただけますか？"

/-- The message of the error rethrown from `chatWithDoctor`'s catch block. -/
def transportErrorText : String :=
  "通信エラーが発生しました。もう一度お試しください。"

/-- `chatWithDoctor`, after a transport-level success:
`responseText = response.text || ""`; if neither text nor grounding is
present, substitute the fixed clarification message (with no grounding);
otherwise return both verbatim. -/
def processResponse (r : GenerateContentResponse) : ChatResult :=
  let responseText := r.text.getD ""
  let gm := extractGroundingMetadata r
  if responseText = "" ∧ gm = none then
    { text := clarificationText, groundingMetadata := none }
  else
    { text := responseText, groundingMetadata := gm }

/-- The observable outcome of `chatWithDoctor`'s try/catch around the model
call: a rejected call (`none`) is rethrown as the fixed transport error; a
resolved call is post-processed and returned normally. -/
def chatWithDoctorResult (outcome : Option GenerateContentResponse) :
    Except String ChatResult :=
  match outcome with
  | none => Except.error transportErrorText
  | some r => Except.ok (processResponse r)

/-! ### Grounding Extractor (`renderGrounding`) -/

/-- The filter predicate of `renderGrounding`:
`c.web?.uri && c.web.uri.includes('google.com/maps')` — the `uri` must be
present, truthy (non-empty), and contain the map pattern. -/
def isMapChunk (c : GroundingChunk) : Bool :=
  match c.web with
  | none => false
  | some w =>
    match w.uri with
    | none => false
    | some u => (decide (u ≠ "")) && hasSubList (("google.com/maps").data) u.data

/-- `renderGrounding`'s chunk filter, in source order. -/
def filterMapChunks (chunks : List GroundingChunk) : List GroundingChunk :=
  chunks.filter isMapChunk

/-! ### Turn Counter / Limiter and Session Orchestrator (`App.tsx`) -/

/-- `App.tsx`: `const MAX_TURNS = 10`. -/
def MAX_TURNS : Nat := 10

/-- `App.tsx`: `messages.filter(m => m.role === 'user').length`. -/
def userMessageCount (log : List Message) : Nat :=
  (log.filter fun m => decide (m.role = Role.user)).length

/-- `App.tsx`: `userMessageCount >= MAX_TURNS`. -/
def isLimitReached (log : List Message) : Bool :=
  decide (MAX_TURNS ≤ userMessageCount log)

/-- The synthetic greeting the session log is initialised with
(`App.tsx` lines 8–14): role `model`, so it never counts as a turn. -/
def welcomeMessage : Message :=
  { id := "welcome"
    role := Role.model
    text := "こんにちは。AI総合病院の総合診療科へようこそ。\n本日はどのような症状でお悩みですか？\n体調や気になること、何でもお話しください。\n\n※画像も2枚まで拝見できます。"
    images := none
    groundingMetadata := none
    isThinking := none }

/-- The reactive state of the `App` component that `handleSendMessage`
reads and writes. -/
structure AppState where
  messages : List Message
  inputText : String
  attachedImages : List String
  status : AppStatus
  location : Option UserLocation
deriving DecidableEq, Repr

/-- JavaScript `String.prototype.trim`: strip whitespace from both ends. -/
def jsTrim (s : String) : String :=
  String.mk (((s.data.dropWhile Char.isWhitespace).reverse.dropWhile
    Char.isWhitespace).reverse)

/-- The guard of `handleSendMessage`:
`(!inputText.trim() && attachedImages.length === 0) || status === THINKING
|| isLimitReached`. -/
def submitBlocked (s : AppState) : Bool :=
  ((decide (jsTrim s.inputText = "")) && (decide (s.attachedImages = [])))
    || (decide (s.status = AppStatus.THINKING)) || isLimitReached s.messages

/-- The optimistically appended user message: `images` is a copy of the
staged attachments when non-empty, `undefined` otherwise. -/
def mkUserMessage (s : AppState) (newId : String) : Message :=
  { id := newId
    role := Role.user
    text := s.inputText
    images := if s.attachedImages.length > 0 then some s.attachedImages else none
    groundingMetadata := none
    isThinking := none }

/-- The fixed-text fallback model message appended by the catch block of
`handleSendMessage`. -/
def fallbackMessage (botId : String) : Message :=
  { id := botId
    role := Role.model
    text := "申し訳ありません。通信エラーが発生しました。もう一度お試しください。"
    images := none
    groundingMetadata := none
    isThinking := none }

/-- How the awaited `chatWithDoctor` promise settles, from the
orchestrator's point of view: resolution with `{ text, groundingMetadata }`
or rejection with any error. -/
inductive CallOutcome where
  | success (text : String) (groundingMetadata : Option GroundingMetadata)
  | failure
deriving DecidableEq, Repr

/-- `handleSendMessage`, end to end for one submission attempt. Returns the
state after the handler (and its `finally`) finishes, paired with the
payload of the single `chatWithDoctor` call it issued (`none` when the
guard made it return early). The call is built from `messages` as captured
*before* the optimistic append (`const currentHistory = messages`), with
the new message's text and images. On resolution the response message is
appended; on rejection the fixed fallback message is appended; `finally`
resets the status to `IDLE` on both paths. -/
def handleSendMessage (s : AppState) (newId botId : String)
    (outcome : CallOutcome) : AppState × Option (List Content) :=
  if submitBlocked s then (s, none)
  else
    let userMsg := mkUserMessage s newId
    let payload := buildContents s.messages userMsg.text (userMsg.images.getD [])
    let botMsg : Message :=
      match outcome with
      | CallOutcome.success t g =>
          { id := botId, role := Role.model, text := t, images := none,
            groundingMetadata := g, isThinking := none }
      | CallOutcome.failure => fallbackMessage botId
    ({ s with
        messages := (s.messages ++ [userMsg]) ++ [botMsg]
        inputText := ""
        attachedImages := []
        status := AppStatus.IDLE },
     some payload)

/-! ### Concrete session states and logs used to instantiate the theorems -/

/-- A minimal user-authored message. -/
def sampleUserMessage : Message :=
  { id := "u", role := Role.user, text := "t", images := none,
    groundingMetadata := none, isThinking := none }

/-- A session state whose log already holds ten user turns. -/
def limitState : AppState :=
  { messages := List.replicate 10 sampleUserMessage
    inputText := "hello"
    attachedImages := []
    status := AppStatus.IDLE
    location := none }

/-- A fresh session state with a pending text submission. -/
def okState : AppState :=
  { messages := [welcomeMessage]
    inputText := "頭痛がします"
    attachedImages := []
    status := AppStatus.IDLE
    location := none }

/-- A session state with an empty text buffer and two staged images, one of
which is not a data-URI. -/
def imgState : AppState :=
  { messages := [welcomeMessage]
    inputText := ""
    attachedImages := ["data:image/png;base64,AAAA", "notadata"]
    status := AppStatus.IDLE
    location := none }

/-- A user message carrying an image payload. -/
def imgMessage : Message :=
  { id := "m", role := Role.user, text := "p",
    images := some ["data:image/png;base64,AAAA"],
    groundingMetadata := none, isThinking := none }

/-- A three-message log: its window has an early position carrying images. -/
def threeLog : List Message := [imgMessage, imgMessage, imgMessage]

/-- An eleven-message log: one more than the window size. -/
def elevenLog : List Message := List.replicate 11 welcomeMessage

/-! ### Helper lemmas -/

/-- `buildContents` unfolded to its two halves. -/
theorem buildContents_eq (history : List Message) (newMessage : String)
    (imgs : List String) :
    buildContents history newMessage imgs
      = buildHistoryBlocks
          (history.drop (history.length - MAX_HISTORY_MESSAGES)).length 0
          (history.drop (history.length - MAX_HISTORY_MESSAGES))
        ++ [{ role := Role.user, parts := currentParts newMessage imgs }] := rfl

/-- The indexed map preserves length. -/
theorem buildHistoryBlocks_length (t : Nat) (l : List Message) : ∀ i,
    (buildHistoryBlocks t i l).length = l.length := by
  induction l with
  | nil => intro i; rfl
  | cons m rest ih => intro i; simp [buildHistoryBlocks, ih]

/-- Element access through the indexed map. -/
theorem buildHistoryBlocks_getElem? (t : Nat) (l : List Message) : ∀ i j,
    (buildHistoryBlocks t i l)[j]?
      = (l[j]?).map (fun m => mkHistoryContent t (i + j) m) := by
  induction l with
  | nil => intro i j; simp [buildHistoryBlocks]
  | cons m rest ih =>
    intro i j
    cases j with
    | zero => simp [buildHistoryBlocks]
    | succ j =>
      have harith : i + 1 + j = i + (j + 1) := by omega
      simp [buildHistoryBlocks, ih (i + 1) j, harith]

/-- Projecting each block to its role and leading part forgets the index and
the image policy: the result is a plain map over the windowed messages. -/
theorem buildHistoryBlocks_map_head (t : Nat) (l : List Message) : ∀ i,
    (buildHistoryBlocks t i l).map (fun c => (c.role, c.parts.head?))
      = l.map (fun m => (m.role, some (Part.text m.text))) := by
  induction l with
  | nil => intro i; rfl
  | cons m rest ih => intro i; simp [buildHistoryBlocks, mkHistoryContent, ih]

/-- The spec's reverse-take-reverse window is the code's `slice(-10)`. -/
theorem specWindow_eq (log : List Message) :
    specWindow log = log.drop (log.length - MAX_HISTORY_MESSAGES) := by
  have h := List.rtake_eq_reverse_take_reverse log MAX_HISTORY_MESSAGES
  simpa [specWindow, List.rtake] using h.symm

/-- The window retains `min length 10` messages. -/
theorem specWindow_length (log : List Message) :
    (specWindow log).length = min log.length 10 := by
  rw [specWindow_eq]
  simp [MAX_HISTORY_MESSAGES]
  omega

/-- The images the orchestrator hands to `chatWithDoctor` are exactly the
staged attachments (`undefined` collapses to the default `[]`). -/
theorem mkUserMessage_images (s : AppState) (newId : String) :
    (mkUserMessage s newId).images.getD [] = s.attachedImages := by
  unfold mkUserMessage
  by_cases h : s.attachedImages.length > 0
  · simp [h]
  · have hnil : s.attachedImages = [] := List.length_eq_zero.mp (by omega)
    simp [h, hnil]

/-- A history block strictly before the final two window positions carries
exactly its text part, whatever images the message holds. -/
theorem mkHistoryContent_parts_of_early (t i : Nat) (m : Message)
    (h : ¬(t - 2 ≤ i)) :
    (mkHistoryContent t i m).parts = [Part.text m.text] := by
  simp only [mkHistoryContent]
  rw [if_neg (fun hc => h hc.2)]

/-- A match of a longer anchored pattern matches every prefix of it. -/
theorem beginsWith_of_append (p q cs : List Char)
    (h : beginsWith (p ++ q) cs = true) : beginsWith p cs = true := by
  induction p generalizing cs with
  | nil => rfl
  | cons a as ih =>
    cases cs with
    | nil => simp [beginsWith] at h
    | cons b bs =>
      simp [beginsWith] at h ⊢
      exact ⟨h.1, ih bs h.2⟩

/-! ### The claims -/

/-- C1: for every session log, the turn count used by the limiter equals the
number of messages with role `user` (the synthetic model-role greeting never
counts), and the limit-reached flag is true exactly when that count is at
least the fixed constant `MAX_TURNS = 10`. -/
theorem c1_turn_count (rest : List Message) :
    userMessageCount (welcomeMessage :: rest) = userMessageCount rest ∧
    (isLimitReached (welcomeMessage :: rest) = true ↔
      10 ≤ userMessageCount (welcomeMessage :: rest)) ∧
    MAX_TURNS = 10 := by
  refine ⟨?_, ?_, rfl⟩
  · simp [userMessageCount, welcomeMessage, List.filter_cons]
  · simp [isLimitReached, MAX_TURNS]

/-- C2: once the log holds at least ten user-role messages, a `submit` call
is a no-op for every input: the state (log, length, busy flag) is returned
unchanged and no model call is issued. -/
theorem c2_limit_noop (s : AppState) (newId botId : String)
    (outcome : CallOutcome) (h : 10 ≤ userMessageCount s.messages) :
    handleSendMessage s newId botId outcome = (s, none) ∧
    (handleSendMessage s newId botId outcome).1.messages.length
      = s.messages.length ∧
    (handleSendMessage s newId botId outcome).1.status = s.status := by
  have hb : submitBlocked s = true := by
    simp [submitBlocked, isLimitReached, MAX_TURNS, h]
  simp [handleSendMessage, hb]

/-- C2 witness: a state with ten user turns; `submit` is a no-op on it. -/
theorem c2_witness :
    10 ≤ userMessageCount limitState.messages ∧
    (handleSendMessage limitState "1" "2" CallOutcome.failure
        = (limitState, none) ∧
      (handleSendMessage limitState "1" "2" CallOutcome.failure).1.messages.length
        = limitState.messages.length ∧
      (handleSendMessage limitState "1" "2" CallOutcome.failure).1.status
        = limitState.status) :=
  ⟨by decide, c2_limit_noop limitState "1" "2" CallOutcome.failure (by decide)⟩

/-- C3: the payload has `min length 10 + 1` blocks; its history portion is,
in insertion order, exactly the most recent `min length 10` messages of the
supplied history (role and text per block), as the spec-side window
`specWindow` describes; and the orchestrator builds that payload from the
log captured *prior to* appending the new user message, with the staged
text and images. -/
theorem c3_window (history : List Message) (newMessage : String)
    (imgs : List String) (s : AppState) (newId botId : String)
    (outcome : CallOutcome) (hAcc : submitBlocked s = false) :
    (buildContents history newMessage imgs).length = min history.length 10 + 1 ∧
    ((buildContents history newMessage imgs).dropLast.map
        (fun c => (c.role, c.parts.head?))
      = (specWindow history).map (fun m => (m.role, some (Part.text m.text)))) ∧
    (handleSendMessage s newId botId outcome).2
      = some (buildContents s.messages s.inputText s.attachedImages) := by
  refine ⟨?_, ?_, ?_⟩
  · rw [buildContents_eq]
    simp [buildHistoryBlocks_length, MAX_HISTORY_MESSAGES]
    omega
  · rw [buildContents_eq, List.dropLast_concat, buildHistoryBlocks_map_head,
      specWindow_eq]
  · have ht : (mkUserMessage s newId).text = s.inputText := rfl
    simp [handleSendMessage, hAcc, ht, mkUserMessage_images]

/-- C3 witness: an eleven-message history yields exactly ten history blocks
plus the final block, and an accepted submission forwards the pre-append
log. -/
theorem c3_witness :
    submitBlocked okState = false ∧
    ((buildContents elevenLog "x" []).length = min elevenLog.length 10 + 1 ∧
      ((buildContents elevenLog "x" []).dropLast.map
          (fun c => (c.role, c.parts.head?))
        = (specWindow elevenLog).map
            (fun m => (m.role, some (Part.text m.text)))) ∧
      (handleSendMessage okState "1" "2" CallOutcome.failure).2
        = some (buildContents okState.messages okState.inputText
            okState.attachedImages)) :=
  ⟨by decide,
    c3_window elevenLog "x" [] okState "1" "2" CallOutcome.failure (by decide)⟩

/-- C4: a message that sits more than two positions from the end of the
selected window contributes its text block only — its content block is
exactly `[text]`, with no inline-data parts, even when the message carries
image payloads. -/
theorem c4_early_window_text_only (history : List Message)
    (newMessage : String) (imgs : List String) (i : Nat)
    (hwin : i + 2 < (specWindow history).length) :
    ((buildContents history newMessage imgs)[i]?).map Content.parts
      = ((specWindow history)[i]?).map (fun m => [Part.text m.text]) := by
  rw [specWindow_eq] at hwin ⊢
  have hi : i < (history.drop (history.length - MAX_HISTORY_MESSAGES)).length := by
    omega
  have hb : i < (buildHistoryBlocks
      (history.drop (history.length - MAX_HISTORY_MESSAGES)).length 0
      (history.drop (history.length - MAX_HISTORY_MESSAGES))).length := by
    rw [buildHistoryBlocks_length]
    exact hi
  rw [buildContents_eq, List.getElem?_append, if_pos hb,
    buildHistoryBlocks_getElem?, List.getElem?_eq_getElem hi]
  simp only [Option.map_some']
  exact congrArg some (mkHistoryContent_parts_of_early _ _ _ (by omega))

/-- C4 witness: in a three-message window whose every message carries an
image, the block at position 0 is text-only. -/
theorem c4_witness :
    0 + 2 < (specWindow threeLog).length ∧
    ((buildContents threeLog "n" [])[0]?).map Content.parts
      = ((specWindow threeLog)[0]?).map (fun m => [Part.text m.text]) :=
  ⟨by decide, c4_early_window_text_only threeLog "n" [] 0 (by decide)⟩

/-- C5: the final content block of every payload is the new text followed by
one inline-data part per currently attached image, in order — the new
turn's images are never windowed out and every one of them yields a part —
and a submission with staged images but all-whitespace text passes the
orchestrator's guard. -/
theorem c5_current_images_always_included (history : List Message)
    (newMessage : String) (imgs : List String) (s : AppState)
    (hText : jsTrim s.inputText = "") (hImgs : s.attachedImages ≠ [])
    (hStatus : s.status = AppStatus.IDLE)
    (hLimit : isLimitReached s.messages = false) :
    ((buildContents history newMessage imgs).getLast?
      = some { role := Role.user,
               parts := Part.text newMessage :: imgs.map mkInlinePart }) ∧
    (∀ img : String, ∃ mt dt, mkInlinePart img = Part.inlineData mt dt) ∧
    submitBlocked s = false := by
  refine ⟨?_, ?_, ?_⟩
  · rw [buildContents_eq]
    simp [currentParts]
  · intro img
    rcases h : matchImageDataUri img with _ | ⟨mime, data⟩ <;>
      simp [mkInlinePart, h]
  · simp [submitBlocked, hImgs, hStatus, hLimit]

/-- C5 witness: empty text with two staged images (one of them not a
data-URI) is accepted, and both images land in the final block. -/
theorem c5_witness :
    (jsTrim imgState.inputText = "" ∧ imgState.attachedImages ≠ [] ∧
      imgState.status = AppStatus.IDLE ∧
      isLimitReached imgState.messages = false) ∧
    (((buildContents [] "" imgState.attachedImages).getLast?
        = some { role := Role.user,
                 parts := Part.text "" ::
                   imgState.attachedImages.map mkInlinePart }) ∧
      (∀ img : String, ∃ mt dt, mkInlinePart img = Part.inlineData mt dt) ∧
      submitBlocked imgState = false) :=
  ⟨⟨by decide, by decide, rfl, by decide⟩,
    c5_current_images_always_included [] "" imgState.attachedImages imgState
      (by decide) (by decide) rfl (by decide)⟩

/-- C6 counterexample: the claim states that a non-data-URI image payload is
never forwarded as an inline-data block, for the new turn's attached images
as well. But attaching the non-data-URI `"notadata"` to a new turn emits an
inline-data block for it (with the whole payload as data and the fallback
MIME type): the `startsWith('data:')` skip exists only on the history
branch. -/
theorem c6_counterexample :
    beginsWith (("data:").data) (("notadata").data) = false ∧
    (buildContents [] "" ["notadata"]).getLast?.map Content.parts
      = some [Part.text "", Part.inlineData "image/jpeg" "notadata"] :=
  ⟨by decide, by decide⟩

/-- C6 as amended: the silent skip of non-data-URI payloads applies exactly
to the images of windowed history messages — such a payload contributes no
part there — while every new-turn attached image is forwarded
unconditionally in the final block, a non-data-URI one as an inline-data
block with the whole payload as data and MIME type `image/jpeg`. -/
theorem c6_amended_history_skip_only (img : String) (history : List Message)
    (newMessage : String) (imgs : List String)
    (h : beginsWith (("data:").data) img.data = false) :
    historyImagePart img = [] ∧
    mkInlinePart img = Part.inlineData "image/jpeg" img ∧
    (buildContents history newMessage imgs).getLast?
      = some { role := Role.user,
               parts := Part.text newMessage :: imgs.map mkInlinePart } := by
  refine ⟨?_, ?_, ?_⟩
  · simp [historyImagePart, h]
  · have hfull : beginsWith (("data:image/").data) img.data = false := by
      cases hx : beginsWith (("data:image/").data) img.data
      · rfl
      · exfalso
        have hsplit : ("data:image/").data = ("data:").data ++ ("image/").data := by
          decide
        rw [hsplit] at hx
        have hpre := beginsWith_of_append (("data:").data) (("image/").data)
          img.data hx
        rw [h] at hpre
        exact Bool.noConfusion hpre
    have hm : matchImageDataUri img = none := by
      unfold matchImageDataUri
      simp [hfull]
    simp [mkInlinePart, hm]
  · rw [buildContents_eq]
    simp [currentParts]

/-- C6 witness for the amended statement, at the payload `"notadata"`. -/
theorem c6_witness :
    beginsWith (("data:").data) (("notadata").data) = false ∧
    (historyImagePart "notadata" = [] ∧
      mkInlinePart "notadata" = Part.inlineData "image/jpeg" "notadata" ∧
      (buildContents [] "x" ["notadata"]).getLast?
        = some { role := Role.user,
                 parts := Part.text "x" ::
                   (["notadata"] : List String).map mkInlinePart }) :=
  ⟨by decide,
    c6_amended_history_skip_only "notadata" [] "x" ["notadata"] (by decide)⟩

/-- C7: when the model call rejects, the accepted submission appends exactly
the optimistic user message followed by one model-role message with the
fixed fallback text; the user message is not rolled back, no further call is
made, the user-turn count grows only by the optimistic append (the fallback
does not count), and the busy flag is reset to `IDLE` by the `finally`. -/
theorem c7_failure_fallback (s : AppState) (newId botId : String)
    (hAcc : submitBlocked s = false) :
    (handleSendMessage s newId botId CallOutcome.failure).1.messages
      = s.messages ++ [mkUserMessage s newId, fallbackMessage botId] ∧
    (fallbackMessage botId).role = Role.model ∧
    (fallbackMessage botId).text
      = "申し訳ありません。通信エラーが発生しました。もう一度お試しください。" ∧
    (mkUserMessage s newId).role = Role.user ∧
    (handleSendMessage s newId botId CallOutcome.failure).1.status
      = AppStatus.IDLE ∧
    userMessageCount (handleSendMessage s newId botId CallOutcome.failure).1.messages
      = userMessageCount s.messages + 1 := by
  refine ⟨?_, rfl, rfl, rfl, ?_, ?_⟩
  · simp [handleSendMessage, hAcc]
  · simp [handleSendMessage, hAcc]
  · simp [handleSendMessage, hAcc, userMessageCount, List.filter_append,
      List.filter_cons, mkUserMessage, fallbackMessage]

/-- C7 witness: a fresh session submitting text whose call rejects. -/
theorem c7_witness :
    submitBlocked okState = false ∧
    ((handleSendMessage okState "1" "2" CallOutcome.failure).1.messages
        = okState.messages ++ [mkUserMessage okState "1", fallbackMessage "2"] ∧
      (fallbackMessage "2").role = Role.model ∧
      (fallbackMessage "2").text
        = "申し訳ありません。通信エラーが発生しました。もう一度お試しください。" ∧
      (mkUserMessage okState "1").role = Role.user ∧
      (handleSendMessage okState "1" "2" CallOutcome.failure).1.status
        = AppStatus.IDLE ∧
      userMessageCount (handleSendMessage okState "1" "2" CallOutcome.failure).1.messages
        = userMessageCount okState.messages + 1) :=
  ⟨by decide, c7_failure_fallback okState "1" "2" (by decide)⟩

/-- C8: a transport-level success carrying neither response text nor
grounding metadata yields the fixed clarification string with no grounding,
returned normally (`Except.ok`), not thrown. -/
theorem c8_empty_response (r : GenerateContentResponse)
    (h1 : r.text.getD "" = "") (h2 : extractGroundingMetadata r = none) :
    chatWithDoctorResult (some r)
      = Except.ok { text := clarificationText, groundingMetadata := none } := by
  simp [chatWithDoctorResult, processResponse, h1, h2]

/-- C8 witness: the response with no text and no candidates. -/
theorem c8_witness :
    ((⟨none, none⟩ : GenerateContentResponse).text.getD "" = "" ∧
      extractGroundingMetadata ⟨none, none⟩ = none) ∧
    chatWithDoctorResult (some (⟨none, none⟩ : GenerateContentResponse))
      = Except.ok { text := clarificationText, groundingMetadata := none } :=
  ⟨⟨rfl, rfl⟩, c8_empty_response ⟨none, none⟩ rfl rfl⟩

/-- C9: the grounding filter of `renderGrounding` is idempotent — filtering
an already-filtered chunk sequence returns it unchanged. -/
theorem c9_filter_idempotent (chunks : List GroundingChunk) :
    filterMapChunks (filterMapChunks chunks) = filterMapChunks chunks := by
  unfold filterMapChunks
  induction chunks with
  | nil => rfl
  | cons c cs ih =>
    cases h : isMapChunk c <;> simp [List.filter_cons, h, ih]

/-- C10: a response with empty text but grounding metadata present is not
substituted: `chatWithDoctor` returns the empty string together with that
metadata, and the orchestrator appends a model message with empty text and
the grounding attached. -/
theorem c10_empty_text_with_grounding (r : GenerateContentResponse)
    (g : GroundingMetadata) (s : AppState) (newId botId : String)
    (h1 : r.text.getD "" = "") (h2 : extractGroundingMetadata r = some g)
    (hAcc : submitBlocked s = false) :
    chatWithDoctorResult (some r)
      = Except.ok { text := "", groundingMetadata := some g } ∧
    (handleSendMessage s newId botId
        (CallOutcome.success "" (some g))).1.messages.getLast?
      = some { id := botId, role := Role.model, text := "",
               images := none, groundingMetadata := some g,
               isThinking := none } := by
  constructor
  · simp [chatWithDoctorResult, processResponse, h1, h2]
  · simp [handleSendMessage, hAcc]

/-- C10 witness: empty text, one candidate carrying grounding metadata. -/
theorem c10_witness :
    ((⟨some "", some [⟨some ⟨some []⟩⟩]⟩ : GenerateContentResponse).text.getD ""
        = "" ∧
      extractGroundingMetadata ⟨some "", some [⟨some ⟨some []⟩⟩]⟩
        = some ⟨some []⟩ ∧
      submitBlocked okState = false) ∧
    (chatWithDoctorResult (some (⟨some "", some [⟨some ⟨some []⟩⟩]⟩ :
          GenerateContentResponse))
        = Except.ok { text := "", groundingMetadata := some ⟨some []⟩ } ∧
      (handleSendMessage okState "1" "2"
          (CallOutcome.success "" (some ⟨some []⟩))).1.messages.getLast?
        = some { id := "2", role := Role.model, text := "",
                 images := none, groundingMetadata := some ⟨some []⟩,
                 isThinking := none }) :=
  ⟨⟨rfl, rfl, by decide⟩,
    c10_empty_text_with_grounding ⟨some "", some [⟨some ⟨some []⟩⟩]⟩ ⟨some []⟩
      okState "1" "2" rfl rfl (by decide)⟩

end AiDoctor
